import Mathlib

/-!
Shallow embedding of `main.py` from the `invoices` repository: a batch
converter from YAML invoice records to PDF documents.  Python dictionaries
loaded from YAML are embedded as structures with `Option` fields (a missing
key corresponds to `none`, and a dictionary subscript that would raise
`KeyError` is the `req` accessor returning `Except`).  The filesystem is an
association list from paths to file contents.  Opening the stylesheet path
is modelled by `CssFile`, which distinguishes a readable file, an absent
file (`FileNotFoundError`, the only exception the source catches) and any
other error raised by `open`/`read` (permission denied, path is a
directory, decode error), which the source does not catch.  The external
libraries (`markdown`, `weasyprint`) are abstracted as total string
functions, since their internals are outside this repository.  Python
floats are embedded as rationals.
-/

namespace Invoices

/-- Python whitespace characters recognised by `str.strip()` (ASCII part). -/
def pySpace (c : Char) : Bool :=
  c = ' ' || c = '\t' || c = '\n' || c = '\x0d' || c = '\x0b' || c = '\x0c'

/-- Embedding of Python `str.strip()`: drop leading and trailing whitespace. -/
def pyStrip (s : String) : String :=
  ⟨(s.data.dropWhile pySpace).reverse.dropWhile pySpace |>.reverse⟩

/-- Spaces used for field padding. -/
def spaces (n : Nat) : String :=
  ⟨List.replicate n ' '⟩

/-- Python format `{x:>w}`: pad on the left with spaces to width `w`. -/
def padLeftTo (w : Nat) (s : String) : String :=
  spaces (w - s.length) ++ s

/-- Python format `{x:<w}`: pad on the right with spaces to width `w`. -/
def padRightTo (w : Nat) (s : String) : String :=
  s ++ spaces (w - s.length)

/-- Round a rational to the nearest integer, ties to even (Python's float
formatting rounds half to even). -/
def roundHalfEven (q : ℚ) : ℤ :=
  let f : ℤ := ⌊q⌋
  let r : ℚ := q - f
  if r < 1/2 then f
  else if r > 1/2 then f + 1
  else if f % 2 = 0 then f else f + 1

/-- Decimal digits of a natural number, zero-padded on the left to `w`. -/
def natDigitsPadded (w : Nat) (n : Nat) : String :=
  let s := toString n
  ⟨List.replicate (w - s.length) '0'⟩ ++ s

/-- Python fixed-point format `{q:.p f}` for a nonnegative rational. -/
def fmtFixedNonneg (p : Nat) (q : ℚ) : String :=
  let n : Nat := (roundHalfEven (q * (10 ^ p : ℕ))).toNat
  if p = 0 then toString n
  else toString (n / 10 ^ p) ++ "." ++ natDigitsPadded p (n % 10 ^ p)

/-- Python fixed-point format `{q:.p f}` on rationals of either sign. -/
def fmtFixed (p : Nat) (q : ℚ) : String :=
  if q < 0 then "-" ++ fmtFixedNonneg p (-q) else fmtFixedNonneg p q

/-- Group a reversed digit list into blocks of three (for thousands
separators). -/
def chunk3 : List Char → List (List Char)
  | [] => []
  | a :: b :: c :: rest => [a, b, c] :: chunk3 rest
  | l => [l]

/-- Insert thousands separators into a digit string, as Python `{x:,}`. -/
def groupThousands (s : String) : String :=
  String.intercalate "," (((chunk3 s.data.reverse).map List.reverse).reverse.map (⟨·⟩))

/-- Python format `{q:,.2f}`: two decimals, thousands separators. -/
def fmtComma2 (q : ℚ) : String :=
  let sign := if q < 0 then "-" else ""
  let a : ℚ := if q < 0 then -q else q
  let n : Nat := (roundHalfEven (a * 100)).toNat
  sign ++ groupThousands (toString (n / 100)) ++ "." ++ natDigitsPadded 2 (n % 100)

/-- Embedding of `os.path.basename`: the part of the path after the last
slash. -/
def basename (p : String) : String :=
  ⟨(p.data.reverse.takeWhile (· ≠ '/')).reverse⟩

/-- Check that `pre` is a prefix of `s`, on the underlying character
lists. -/
def strStartsWith (s pre : String) : Bool :=
  pre.data.isPrefixOf s.data

/-- Check that `suf` is a suffix of `s`, on the underlying character
lists. -/
def strEndsWith (s suf : String) : Bool :=
  suf.data.isSuffixOf s.data

/-- Drop the first `n` characters of `s`. -/
def strDrop (s : String) (n : Nat) : String :=
  ⟨s.data.drop n⟩

/-- Drop the last `n` characters of `s`. -/
def strDropRight (s : String) (n : Nat) : String :=
  ⟨s.data.take (s.data.length - n)⟩

/-- Check that character `c` occurs in `s`. -/
def strContains (s : String) (c : Char) : Bool :=
  s.data.contains c

/-- One-star glob matching: does `p` equal `pre ++ mid ++ suf` for some `mid`
that contains no path separator?  This is the semantics of a glob pattern
`pre*suf` whose star sits inside a single path segment. -/
def matchStar (pre suf p : String) (hiddenOk : Bool) : Bool :=
  strStartsWith p pre &&
  (let rest := strDrop p pre.length
   decide (suf.length ≤ rest.length) && strEndsWith rest suf &&
   !(strContains (strDropRight rest suf.length) '/')) &&
  (hiddenOk || !(strStartsWith (strDrop p pre.length) "."))

/-- The filesystem: an association list from path to content. -/
abbrev FS := List (String × String)

/-- Write (create or overwrite) a file: the new entry shadows any earlier
entry for the same path, since `fsRead` returns the first match. -/
def fsWrite (fs : FS) (p c : String) : FS :=
  (p, c) :: fs

/-- Read a file's content, `none` when absent. -/
def fsRead (fs : FS) (p : String) : Option String :=
  (fs.find? (fun e => e.1 = p)).map (·.2)

/-- One service line item as loaded from YAML: every key optional, since a
YAML mapping may omit any of them (`item["key"]` raises `KeyError`). -/
structure RawService where
  description : Option String
  hours : Option ℚ
  rate : Option ℚ
  amount : Option ℚ
  deriving Repr, DecidableEq

/-- An invoice record as loaded from YAML: every key optional. -/
structure RawInvoice where
  invoice_number : Option String
  invoice_date : Option String
  due_date : Option String
  from_name : Option String
  from_email : Option String
  to_name : Option String
  to_email : Option String
  services : Option (List RawService)
  total_amount : Option ℚ
  payment_instructions : Option String
  terms : Option String
  deriving Repr, DecidableEq

/-- Python dictionary subscript `d[k]`: raises `KeyError` when the key is
missing. -/
def req {α : Type} (o : Option α) (k : String) : Except String α :=
  match o with
  | some v => Except.ok v
  | none => Except.error ("KeyError: " ++ k)

/-- What opening and reading the stylesheet path can yield: the file's
content, a `FileNotFoundError` (the file is absent), or any other exception
raised by `open`/`read` — `PermissionError`, `IsADirectoryError`,
`UnicodeDecodeError` — carried as its message. -/
inductive CssFile where
  | content : String → CssFile
  | absent : CssFile
  | ioError : String → CssFile
  deriving Repr, DecidableEq

/-- The built-in minimal style block of `load_css` (`main.py` line 21). -/
def minimal_style : String :=
  "<style>body \x7b font-family: Arial, sans-serif; margin: 40px; \x7d</style>"

/-- The warning `load_css` prints when the stylesheet is absent (`main.py`
line 20). -/
def css_warning : String :=
  "Warning: CSS file includes/style.css not found. Using minimal styling."

/-- Embedding of `load_css` (`main.py` lines 14-21): open and read the
stylesheet file, returning the style block together with the warnings
printed.  Present content is wrapped in a style tag; an absent file falls
back to the built-in minimal style with a non-fatal warning, since the
source catches `FileNotFoundError` — and only that, so any other exception
on the path propagates to the caller. -/
def load_css (cssFile : CssFile) : Except String (String × List String) :=
  match cssFile with
  | CssFile.content c => Except.ok ("<style>\n" ++ c ++ "\n</style>", [])
  | CssFile.absent => Except.ok (minimal_style, [css_warning])
  | CssFile.ioError m => Except.error m

/-- Embedding of `get_invoice_files` (`main.py` lines 23-27): glob
`invoices/*.yaml` over the given directory listing (glob does not match
hidden files), then filter out files whose base name starts with an
underscore (templates). -/
def get_invoice_files (paths : List String) : List String :=
  let invoice_files := paths.filter (fun p => matchStar "invoices/" ".yaml" p false)
  invoice_files.filter (fun f => !(strStartsWith (basename f) "_"))

/-- Embedding of `check_existing_pdf` (`main.py` lines 29-36): under
force-regenerate, always report no existing PDF; otherwise glob the pattern
`invoice_<number>_*.pdf` under the output directory against the filesystem
and report whether any file matches. -/
def check_existing_pdf (invoice_number : String) (fs : FS)
    (output_dir : String) (force_regenerate : Bool) : Bool :=
  if force_regenerate then false
  else
    decide (0 < ((fs.map (·.1)).filter
      (fun p => matchStar (output_dir ++ "/invoice_" ++ invoice_number ++ "_") ".pdf" p true)).length)

/-- The `to_section` built by `create_markdown_invoice` (`main.py`
lines 43-45): the recipient name, with the email line appended only when
`to_email` is present and truthy both before and after `strip()`. -/
def to_section_of (to_name : String) (to_email : Option String) : String :=
  match to_email with
  | some e => if e ≠ "" ∧ pyStrip e ≠ "" then to_name ++ "  \nEmail: `" ++ e ++ "`" else to_name
  | none => to_name

/-- One row of the services table (`main.py` line 68). -/
def service_row (d : String) (h r a : ℚ) : String :=
  "| " ++ padRightTo 28 d ++ " | " ++ padLeftTo 5 (fmtFixed 1 h) ++ " | $" ++
    padLeftTo 6 (fmtFixed 2 r) ++ "/hr | $" ++ padLeftTo 8 (fmtFixed 2 a) ++ " |\n"

/-- Map a fallible function over a list, stopping at the first error, as a
Python loop or generator expression raises at the first failing element. -/
def mapExcept {α β : Type} (f : α → Except String β) : List α → Except String (List β)
  | [] => Except.ok []
  | a :: l => do
    let b ← f a
    let bs ← mapExcept f l
    pure (b :: bs)

/-- The `item["hours"]` access in the `total_hours` generator expression
(`main.py` line 40). -/
def hours_of (item : RawService) : Except String ℚ :=
  req item.hours "hours"

/-- One iteration of the services loop (`main.py` lines 67-68): subscript
the four keys, then format the row. -/
def service_row_of (s : RawService) : Except String String := do
  let d ← req s.description "description"
  let h ← req s.hours "hours"
  let r ← req s.rate "rate"
  let a ← req s.amount "amount"
  pure (service_row d h r a)

/-- Embedding of `create_markdown_invoice` (`main.py` lines 39-80): render an invoice
record to markdown.  Dictionary subscripts that would raise `KeyError` on a
missing key become `Except.error`; field accesses follow the order the
Python expressions evaluate in. -/
def create_markdown_invoice (data : RawInvoice) : Except String String := do
  let services ← req data.services "services"
  let hoursList ← mapExcept hours_of services
  let total_hours : ℚ := hoursList.sum
  let to_name ← req data.to_name "to_name"
  let to_section := to_section_of to_name data.to_email
  let invoice_number ← req data.invoice_number "invoice_number"
  let invoice_date ← req data.invoice_date "invoice_date"
  let due_date ← req data.due_date "due_date"
  let from_name ← req data.from_name "from_name"
  let from_email ← req data.from_email "from_email"
  let header :=
    "\n# INVOICE\n\n**Invoice Number:** " ++ invoice_number ++
    "  \n**Invoice Date:** " ++ invoice_date ++
    "  \n**Due Date:** " ++ due_date ++
    "  \n\n## From\n" ++ from_name ++
    "  \nEmail: `" ++ from_email ++
    "`  \n\n" ++
    ("## To\n" ++ to_section ++ "  \n") ++
    "\n## Description of Services\nFor professional services rendered:\n\n" ++
    "| Description                  | Hours | Rate    | Amount    |\n" ++
    "|------------------------------|-------|---------|-----------|\n"
  let rows ← mapExcept service_row_of services
  let total_amount ← req data.total_amount "total_amount"
  let payment_instructions ← req data.payment_instructions "payment_instructions"
  let terms ← req data.terms "terms"
  pure (header ++ String.join rows ++ "\n" ++
    "**Total Hours:** " ++ fmtFixed 1 total_hours ++ "  \n" ++
    "**Total Amount Due:** $" ++ fmtComma2 total_amount ++
    "\n\n## Payment Instructions\n" ++ payment_instructions ++
    "\n\n## Terms\n" ++ terms ++ "\n")

/-- The external `markdown.markdown` converter (tables extension enabled).
Its grammar is an external library's responsibility, outside this
repository; it is embedded as an abstract total function of the markdown
text, keeping the source text observable. -/
def markdown_markdown (s : String) : String := s

/-- The external WeasyPrint renderer: the produced PDF bytes are embedded as
an abstract total function of the HTML document being rendered. -/
def weasyprint_render (html : String) : String := html

/-- The complete HTML document assembled inside `generate_pdf` (`main.py`
line 94): a style block plus the converted markdown body. -/
def full_html_of (css markdown_content : String) : String :=
  "<html><head>" ++ css ++ "</head><body>" ++
    markdown_markdown markdown_content ++ "</body></html>"

/-- Embedding of `generate_pdf` (`main.py` lines 83-105): load the style
block (whose uncaught errors propagate from here), build the full HTML,
write it to the fixed `debug.html` path when in debug mode, then write the
rendered document to the output path.  Returns the updated filesystem, the
assembled HTML document and the lines printed. -/
def generate_pdf (cssFile : CssFile) (markdown_content output_filename : String)
    (debug_mode : Bool) (fs : FS) : Except String (FS × String × List String) := do
  let cw ← load_css cssFile
  let full_html := full_html_of cw.1 markdown_content
  let fs1 := if debug_mode then fsWrite fs "debug.html" full_html else fs
  let fs2 := fsWrite fs1 output_filename (weasyprint_render full_html)
  pure (fs2, full_html, cw.2 ++
    (if debug_mode then ["Debug HTML saved: debug.html"] else []) ++
    ["PDF generated: " ++ output_filename])

/-- Command-line flags of `main` (`--regenerate`, `--debug`). -/
structure Args where
  regenerate : Bool
  debug : Bool
  deriving Repr, DecidableEq

/-- Terminal state of one record in the batch loop.  A generated record
carries the full HTML document produced for it. -/
inductive Outcome where
  | generated : String → Outcome
  | skipped : Outcome
  | failed : String → Outcome
  deriving Repr, DecidableEq

/-- An input file: its path together with the result of YAML-loading it
(`Except.error` when loading raises, or the loaded record). -/
abbrev Entry := String × Except String RawInvoice

/-- The body of the `try` block of `main`'s per-record loop (`main.py`
lines 146-168): load, check existence, render, derive the output filename
from the invoice number and today's date, generate. -/
def process_one (args : Args) (cssFile : CssFile) (today : String)
    (fs : FS) (entry : Entry) : Except String (FS × Outcome × List String) := do
  let invoice_data ← entry.2
  let invoice_number ← req invoice_data.invoice_number "invoice_number"
  if check_existing_pdf invoice_number fs "output" args.regenerate then
    pure (fs, Outcome.skipped, ["Skipping invoice " ++ invoice_number ++ " - PDF already exists"])
  else do
    let markdown_content ← create_markdown_invoice invoice_data
    let output_filename := "output/invoice_" ++ invoice_number ++ "_" ++ today ++ ".pdf"
    let overwriteLog :=
      if args.regenerate && (fsRead fs output_filename).isSome then
        ["Overwriting existing PDF for invoice " ++ invoice_number]
      else []
    let r ← generate_pdf cssFile markdown_content output_filename args.debug fs
    pure (r.1, Outcome.generated r.2.1, overwriteLog ++ r.2.2)

/-- One iteration of `main`'s loop including the `except` clause (`main.py`
lines 145-171): an exception leaves the filesystem unchanged and logs the
error with the file name. -/
def stepResult (args : Args) (cssFile : CssFile) (today : String)
    (fs : FS) (entry : Entry) : FS × Outcome × List String :=
  match process_one args cssFile today fs entry with
  | Except.ok r => r
  | Except.error e => (fs, Outcome.failed e, ["Error processing " ++ entry.1 ++ ": " ++ e])

/-- Mutable state of one batch run: the filesystem plus `processed_count`,
`skipped_count` and the console log. -/
structure BatchState where
  fs : FS
  processed_count : Nat
  skipped_count : Nat
  log : List String
  deriving Repr, DecidableEq

/-- Contribution of an outcome to `processed_count`. -/
def genInc : Outcome → Nat
  | Outcome.generated _ => 1
  | _ => 0

/-- Contribution of an outcome to `skipped_count`. -/
def skipInc : Outcome → Nat
  | Outcome.skipped => 1
  | _ => 0

/-- Fold one record into the batch state. -/
def step (args : Args) (cssFile : CssFile) (today : String)
    (s : BatchState) (entry : Entry) : BatchState :=
  let r := stepResult args cssFile today s.fs entry
  { fs := r.1
    processed_count := s.processed_count + genInc r.2.1
    skipped_count := s.skipped_count + skipInc r.2.1
    log := s.log ++ r.2.2 }

/-- The per-record loop of `main` (`main.py` lines 145-171) over a list of
candidate input files. -/
def runBatch (args : Args) (cssFile : CssFile) (today : String)
    (files : List Entry) (s : BatchState) : BatchState :=
  files.foldl (step args cssFile today) s

/-- The sequence of full HTML documents of the records a run generates, in
order. -/
def debugTrace (args : Args) (cssFile : CssFile) (today : String) :
    List Entry → FS → List String
  | [], _ => []
  | e :: rest, fs =>
    match stepResult args cssFile today fs e with
    | (fs', Outcome.generated h, _) => h :: debugTrace args cssFile today rest fs'
    | (fs', _, _) => debugTrace args cssFile today rest fs'

/-- The filesystem after a run, as a function of the starting filesystem
alone. -/
def coreFS (a : Args) (c : CssFile) (t : String) : List Entry → FS → FS
  | [], fs => fs
  | e :: r, fs => coreFS a c t r (stepResult a c t fs e).1

/-- How many records a run generates, as a function of the starting
filesystem alone. -/
def genCount (a : Args) (c : CssFile) (t : String) : List Entry → FS → Nat
  | [], _ => 0
  | e :: r, fs => genInc (stepResult a c t fs e).2.1 + genCount a c t r (stepResult a c t fs e).1

/-- How many records a run skips, as a function of the starting filesystem
alone. -/
def skipCount (a : Args) (c : CssFile) (t : String) : List Entry → FS → Nat
  | [], _ => 0
  | e :: r, fs => skipInc (stepResult a c t fs e).2.1 + skipCount a c t r (stepResult a c t fs e).1

/-- The lines a run prints, as a function of the starting filesystem alone. -/
def logsOf (a : Args) (c : CssFile) (t : String) : List Entry → FS → List String
  | [], _ => []
  | e :: r, fs => (stepResult a c t fs e).2.2 ++ logsOf a c t r (stepResult a c t fs e).1

/-! ### Fully-populated records

A record in which every required key is present, for stating properties of
valid inputs; `toRaw` embeds it back into the loaded-dictionary form. -/

/-- A service line item with all four keys present. -/
structure Service where
  description : String
  hours : ℚ
  rate : ℚ
  amount : ℚ
  deriving Repr, DecidableEq

/-- Forget that the keys are present. -/
def Service.toRaw (s : Service) : RawService :=
  ⟨some s.description, some s.hours, some s.rate, some s.amount⟩

/-- An invoice record with every required key present (`to_email` stays
optional, as it is in the template). -/
structure Invoice where
  invoice_number : String
  invoice_date : String
  due_date : String
  from_name : String
  from_email : String
  to_name : String
  to_email : Option String
  services : List Service
  total_amount : ℚ
  payment_instructions : String
  terms : String
  deriving Repr, DecidableEq

/-- Forget that the required keys are present. -/
def Invoice.toRaw (v : Invoice) : RawInvoice :=
  ⟨some v.invoice_number, some v.invoice_date, some v.due_date, some v.from_name,
   some v.from_email, some v.to_name, v.to_email, some (v.services.map Service.toRaw),
   some v.total_amount, some v.payment_instructions, some v.terms⟩

/-- Closed form of the markdown before the `## To` heading. -/
def md_to_pre (v : Invoice) : String :=
  "\n# INVOICE\n\n**Invoice Number:** " ++ v.invoice_number ++
  "  \n**Invoice Date:** " ++ v.invoice_date ++
  "  \n**Due Date:** " ++ v.due_date ++
  "  \n\n## From\n" ++ v.from_name ++
  "  \nEmail: `" ++ v.from_email ++
  "`  \n\n"

/-- Closed form of the recipient section of the markdown. -/
def md_to_sect (v : Invoice) : String :=
  "## To\n" ++ to_section_of v.to_name v.to_email ++ "  \n"

/-- Closed form of the markdown between the recipient section and the
service rows. -/
def md_table_head : String :=
  "\n## Description of Services\nFor professional services rendered:\n\n" ++
  "| Description                  | Hours | Rate    | Amount    |\n" ++
  "|------------------------------|-------|---------|-----------|\n"

/-- Closed form of the service rows. -/
def md_rows (v : Invoice) : String :=
  String.join (v.services.map (fun s => service_row s.description s.hours s.rate s.amount))

/-- Closed form of the markdown from the start through the blank line
before the totals block. -/
def md_before_totals (v : Invoice) : String :=
  md_to_pre v ++ md_to_sect v ++ md_table_head ++ md_rows v ++ "\n"

/-- Closed form of the markdown after the Total Hours line. -/
def md_after_totals (v : Invoice) : String :=
  "**Total Amount Due:** $" ++ fmtComma2 v.total_amount ++
  "\n\n## Payment Instructions\n" ++ v.payment_instructions ++
  "\n\n## Terms\n" ++ v.terms ++ "\n"

/-- Closed form of the whole rendered markdown of a fully-populated
record. -/
def md_of (v : Invoice) : String :=
  md_before_totals v ++
  ("**Total Hours:** " ++ fmtFixed 1 ((v.services.map Service.hours).sum) ++ "  \n") ++
  md_after_totals v


/-! ### Concrete records used by witnesses and counterexamples -/

/-- A sample service item. -/
def svcA : Service := ⟨"Consulting", 10, 95, 950⟩

/-- A second sample service item. -/
def svcB : Service := ⟨"Development", 5/2, 100, 250⟩

/-- A sample fully-populated invoice. -/
def invA : Invoice :=
  ⟨"1001", "2026-10-01", "2026-10-31", "Alice", "a@x.io", "Bob", some "b@y.io",
   [svcA, svcB], 1200, "Wire transfer", "Net 30"⟩

/-- A second sample invoice, with a blank recipient email. -/
def invB : Invoice :=
  ⟨"1002", "2026-10-02", "2026-11-01", "Alice", "a@x.io", "Carol", some "   ",
   [svcA], 950, "Check", "Net 15"⟩

/-- A sample invoice whose number is a prefix of another invoice number. -/
def invTen : Invoice :=
  ⟨"10", "2026-10-01", "2026-10-31", "Alice", "a@x.io", "Bob", none,
   [svcA], 950, "Wire transfer", "Net 30"⟩

/-- A loadable entry for `invA`. -/
def entryA : Entry := ("invoices/1001.yaml", Except.ok invA.toRaw)

/-- A loadable entry for `invB`. -/
def entryB : Entry := ("invoices/1002.yaml", Except.ok invB.toRaw)

/-- An entry whose YAML load raises. -/
def entryBad : Entry := ("invoices/bad.yaml", Except.error "yaml.YAMLError")

/-- A filesystem holding one artifact for invoice 1001 dated 20250101. -/
def fs0 : FS := [("output/invoice_1001_20250101.pdf", "pdfbytes")]

lemma ok_bind {α β : Type} (a : α) (f : α → Except String β) :
    (Except.ok a : Except String α) >>= f = f a := rfl

lemma hours_of_toRaw (s : Service) : hours_of s.toRaw = Except.ok s.hours := rfl

lemma service_row_of_toRaw (s : Service) :
    service_row_of s.toRaw = Except.ok (service_row s.description s.hours s.rate s.amount) := rfl

lemma mapExcept_hours_of (l : List Service) :
    mapExcept hours_of (l.map Service.toRaw) = Except.ok (l.map Service.hours) := by
  induction l with
  | nil => rfl
  | cons a l ih => simp [mapExcept, hours_of_toRaw, ih, List.map_cons, ok_bind]

lemma mapExcept_service_row_of (l : List Service) :
    mapExcept service_row_of (l.map Service.toRaw) =
      Except.ok (l.map (fun s => service_row s.description s.hours s.rate s.amount)) := by
  induction l with
  | nil => rfl
  | cons a l ih => simp [mapExcept, service_row_of_toRaw, ih, List.map_cons, ok_bind]

/-- On a fully-populated record the renderer succeeds and produces exactly
the closed-form markdown. -/
lemma create_markdown_invoice_toRaw (v : Invoice) :
    create_markdown_invoice v.toRaw = Except.ok (md_of v) := by
  simp only [create_markdown_invoice, Invoice.toRaw, req, ok_bind, mapExcept_hours_of,
    mapExcept_service_row_of, md_of, md_before_totals, md_to_pre, md_to_sect, md_table_head,
    md_rows, md_after_totals, String.append_assoc]
  rfl

/-! ### Supporting lemmas about the filesystem and the batch loop -/

lemma error_bind {α β : Type} (m : String) (f : α → Except String β) :
    (Except.error m : Except String α) >>= f = Except.error m := rfl

lemma fsRead_fsWrite_self (fs : FS) (p c : String) :
    fsRead (fsWrite fs p c) p = some c := by
  simp [fsRead, fsWrite]

lemma fsRead_fsWrite_ne (fs : FS) (p q c : String) (h : q ≠ p) :
    fsRead (fsWrite fs p c) q = fsRead fs q := by
  have : ¬ (p = q) := fun hc => h hc.symm
  simp [fsRead, fsWrite, List.find?_cons, this]

lemma output_filename_ne_debug (n t : String) :
    ("output/invoice_" ++ n ++ "_" ++ t ++ ".pdf") ≠ "debug.html" := by
  intro h
  have hl := congrArg String.length h
  simp only [String.length_append] at hl
  have e1 : ("output/invoice_" : String).length = 15 := rfl
  have e2 : ("_" : String).length = 1 := rfl
  have e3 : (".pdf" : String).length = 4 := rfl
  have e4 : ("debug.html" : String).length = 10 := rfl
  rw [e1, e2, e3, e4] at hl
  omega

lemma runBatch_nil (a : Args) (c : CssFile) (t : String) (s : BatchState) :
    runBatch a c t [] s = s := rfl

lemma runBatch_cons (a : Args) (c : CssFile) (t : String) (e : Entry)
    (l : List Entry) (s : BatchState) :
    runBatch a c t (e :: l) s = runBatch a c t l (step a c t s e) := rfl

lemma runBatch_append (a : Args) (c : CssFile) (t : String)
    (l₁ l₂ : List Entry) (s : BatchState) :
    runBatch a c t (l₁ ++ l₂) s = runBatch a c t l₂ (runBatch a c t l₁ s) := by
  simp [runBatch, List.foldl_append]

lemma step_def (a : Args) (c : CssFile) (t : String) (s : BatchState) (e : Entry) :
    step a c t s e =
      ⟨(stepResult a c t s.fs e).1,
       s.processed_count + genInc (stepResult a c t s.fs e).2.1,
       s.skipped_count + skipInc (stepResult a c t s.fs e).2.1,
       s.log ++ (stepResult a c t s.fs e).2.2⟩ := rfl

/-- A batch run decomposes into the four observables: the final filesystem,
the counter increments, and the appended log. -/
lemma runBatch_eq (a : Args) (c : CssFile) (t : String) :
    ∀ (files : List Entry) (fs : FS) (p k : Nat) (l : List String),
      runBatch a c t files ⟨fs, p, k, l⟩ =
        ⟨coreFS a c t files fs, p + genCount a c t files fs,
         k + skipCount a c t files fs, l ++ logsOf a c t files fs⟩ := by
  intro files
  induction files with
  | nil => intro fs p k l; simp [runBatch_nil, coreFS, genCount, skipCount, logsOf]
  | cons e files ih =>
    intro fs p k l
    rw [runBatch_cons, step_def]
    simp only []
    rw [ih]
    simp [coreFS, genCount, skipCount, logsOf, Nat.add_assoc, List.append_assoc]

lemma pure_ok {α : Type} (x : α) : (pure x : Except String α) = Except.ok x := rfl

lemma stepResult_of_ok {a : Args} {c : CssFile} {t : String} {fs : FS}
    {entry : Entry} {r : FS × Outcome × List String}
    (h : process_one a c t fs entry = Except.ok r) :
    stepResult a c t fs entry = r := by
  simp [stepResult, h]

lemma stepResult_of_error {a : Args} {c : CssFile} {t : String} {fs : FS}
    {entry : Entry} {m : String}
    (h : process_one a c t fs entry = Except.error m) :
    stepResult a c t fs entry =
      (fs, Outcome.failed m, ["Error processing " ++ entry.1 ++ ": " ++ m]) := by
  simp [stepResult, h]

lemma process_one_load_error {a : Args} {c : CssFile} {t : String} {fs : FS}
    {entry : Entry} {m : String} (h : entry.2 = Except.error m) :
    process_one a c t fs entry = Except.error m := by
  simp [process_one, h, error_bind]

lemma process_one_no_number {a : Args} {c : CssFile} {t : String} {fs : FS}
    {entry : Entry} {d : RawInvoice}
    (h1 : entry.2 = Except.ok d) (h2 : d.invoice_number = none) :
    process_one a c t fs entry = Except.error ("KeyError: " ++ "invoice_number") := by
  simp [process_one, h1, h2, req, ok_bind, error_bind]

lemma process_one_skip {a : Args} {c : CssFile} {t : String} {fs : FS}
    {entry : Entry} {d : RawInvoice} {n : String}
    (h1 : entry.2 = Except.ok d) (h2 : d.invoice_number = some n)
    (h3 : check_existing_pdf n fs "output" a.regenerate = true) :
    process_one a c t fs entry =
      Except.ok (fs, Outcome.skipped,
        ["Skipping invoice " ++ n ++ " - PDF already exists"]) := by
  simp [process_one, h1, h2, req, ok_bind, h3, pure_ok]

lemma process_one_render_error {a : Args} {c : CssFile} {t : String} {fs : FS}
    {entry : Entry} {d : RawInvoice} {n : String} {m : String}
    (h1 : entry.2 = Except.ok d) (h2 : d.invoice_number = some n)
    (h3 : check_existing_pdf n fs "output" a.regenerate = false)
    (h4 : create_markdown_invoice d = Except.error m) :
    process_one a c t fs entry = Except.error m := by
  simp [process_one, h1, h2, req, ok_bind, error_bind, h3, h4]

lemma process_one_css_error {a : Args} {c : CssFile} {t : String} {fs : FS}
    {entry : Entry} {d : RawInvoice} {n : String} {md : String} {m : String}
    (h1 : entry.2 = Except.ok d) (h2 : d.invoice_number = some n)
    (h3 : check_existing_pdf n fs "output" a.regenerate = false)
    (h4 : create_markdown_invoice d = Except.ok md)
    (h5 : load_css c = Except.error m) :
    process_one a c t fs entry = Except.error m := by
  simp [process_one, generate_pdf, h1, h2, req, ok_bind, error_bind, h3, h4, h5]

lemma process_one_generate {a : Args} {c : CssFile} {t : String} {fs : FS}
    {entry : Entry} {d : RawInvoice} {n : String} {md : String}
    {cw : String × List String}
    (h1 : entry.2 = Except.ok d) (h2 : d.invoice_number = some n)
    (h3 : check_existing_pdf n fs "output" a.regenerate = false)
    (h4 : create_markdown_invoice d = Except.ok md)
    (h5 : load_css c = Except.ok cw) :
    process_one a c t fs entry =
      Except.ok
        (fsWrite (if a.debug then fsWrite fs "debug.html" (full_html_of cw.1 md) else fs)
           ("output/invoice_" ++ n ++ "_" ++ t ++ ".pdf")
           (weasyprint_render (full_html_of cw.1 md)),
         Outcome.generated (full_html_of cw.1 md),
         (if a.regenerate && (fsRead fs ("output/invoice_" ++ n ++ "_" ++ t ++ ".pdf")).isSome then
            ["Overwriting existing PDF for invoice " ++ n]
          else []) ++
           (cw.2 ++ (if a.debug then ["Debug HTML saved: debug.html"] else []) ++
            ["PDF generated: " ++ ("output/invoice_" ++ n ++ "_" ++ t ++ ".pdf")])) := by
  simp [process_one, generate_pdf, h1, h2, req, ok_bind, h3, h4, h5, pure_ok]

/-- Inversion for one loop iteration: either the record was generated — the
stylesheet loaded, and the new filesystem holds the debug intermediate (in
debug mode) and the rendered document — or it was not generated and the
filesystem is untouched. -/
lemma stepResult_inv (a : Args) (c : CssFile) (t : String) (fs : FS) (entry : Entry) :
    (∃ n md cw, load_css c = Except.ok cw ∧
       (stepResult a c t fs entry).2.1 = Outcome.generated (full_html_of cw.1 md) ∧
       (stepResult a c t fs entry).1 =
         fsWrite (if a.debug then fsWrite fs "debug.html" (full_html_of cw.1 md) else fs)
           ("output/invoice_" ++ n ++ "_" ++ t ++ ".pdf")
           (weasyprint_render (full_html_of cw.1 md))) ∨
    ((∀ H, (stepResult a c t fs entry).2.1 ≠ Outcome.generated H) ∧
       (stepResult a c t fs entry).1 = fs) := by
  rcases he : entry.2 with m | d
  · right; rw [stepResult_of_error (process_one_load_error he)]; simp
  · rcases hn : d.invoice_number with _ | n
    · right; rw [stepResult_of_error (process_one_no_number he hn)]; simp
    · cases hcv : check_existing_pdf n fs "output" a.regenerate with
      | true => right; rw [stepResult_of_ok (process_one_skip he hn hcv)]; simp
      | false =>
        rcases hm : create_markdown_invoice d with m | md
        · right; rw [stepResult_of_error (process_one_render_error he hn hcv hm)]; simp
        · rcases hcss : load_css c with m | cw
          · right
            rw [stepResult_of_error (process_one_css_error he hn hcv hm hcss)]; simp
          · left
            refine ⟨n, md, cw, rfl, ?_, ?_⟩ <;>
              rw [stepResult_of_ok (process_one_generate he hn hcv hm hcss)]

/-- With debug mode on, a generated record leaves its full HTML at the fixed
`debug.html` path. -/
lemma debug_html_after_generated {a : Args} {c : CssFile} {t : String}
    {fs fs' : FS} {entry : Entry} {H : String} {lg : List String}
    (hdbg : a.debug = true)
    (h : stepResult a c t fs entry = (fs', Outcome.generated H, lg)) :
    fsRead fs' "debug.html" = some H := by
  rcases stepResult_inv a c t fs entry with ⟨n, md, cw, hcw, h1, h2⟩ | ⟨h1, h2⟩
  · rw [h] at h1 h2
    simp only [] at h1 h2
    have hH : H = full_html_of cw.1 md := by
      cases h1; rfl
    rw [h2, hH]
    simp only [hdbg, if_true]
    rw [fsRead_fsWrite_ne _ _ _ _ (output_filename_ne_debug n t).symm]
    exact fsRead_fsWrite_self _ _ _
  · exact absurd (by rw [h]) (h1 H)

/-- A record that is not generated leaves the filesystem untouched. -/
lemma fs_unchanged_of_not_generated {a : Args} {c : CssFile} {t : String}
    {fs fs' : FS} {entry : Entry} {oc : Outcome} {lg : List String}
    (h : stepResult a c t fs entry = (fs', oc, lg))
    (hoc : ∀ H, oc ≠ Outcome.generated H) : fs' = fs := by
  rcases stepResult_inv a c t fs entry with ⟨n, md, cw, hcw, h1, h2⟩ | ⟨h1, h2⟩
  · rw [h] at h1
    exact absurd h1 (hoc (full_html_of cw.1 md))
  · rw [h] at h2
    exact h2

/-- Under the force flag no record is ever skipped. -/
lemma stepResult_force_not_skipped (a : Args) (c : CssFile) (t : String)
    (fs : FS) (entry : Entry) (ha : a.regenerate = true) :
    (stepResult a c t fs entry).2.1 ≠ Outcome.skipped := by
  have hc : ∀ n, check_existing_pdf n fs "output" a.regenerate = false := by
    intro n; simp [check_existing_pdf, ha]
  rcases he : entry.2 with m | d
  · rw [stepResult_of_error (process_one_load_error he)]; simp
  · rcases hn : d.invoice_number with _ | n
    · rw [stepResult_of_error (process_one_no_number he hn)]; simp
    · rcases hm : create_markdown_invoice d with m | md
      · rw [stepResult_of_error (process_one_render_error he hn (hc n) hm)]; simp
      · rcases hcss : load_css c with m | cw
        · rw [stepResult_of_error (process_one_css_error he hn (hc n) hm hcss)]; simp
        · rw [stepResult_of_ok (process_one_generate he hn (hc n) hm hcss)]; simp


lemma debugTrace_nil (a : Args) (c : CssFile) (t : String) (fs : FS) :
    debugTrace a c t [] fs = [] := rfl

lemma debugTrace_cons_generated (rest : List Entry) {a : Args} {c : CssFile}
    {t : String} {fs fs' : FS} {e : Entry} {H : String} {lg : List String}
    (h : stepResult a c t fs e = (fs', Outcome.generated H, lg)) :
    debugTrace a c t (e :: rest) fs = H :: debugTrace a c t rest fs' := by
  simp [debugTrace, h]

/-! ### Claim theorems -/

/-- C2: for every valid record with N service line items, the rendered
markdown's Total Hours value equals the sum of the N items' hours fields,
formatted to one decimal place. -/
theorem c2_total_hours (v : Invoice) :
    ∃ md, create_markdown_invoice v.toRaw = Except.ok md ∧
      ∃ a b, md = a ++
        ("**Total Hours:** " ++ fmtFixed 1 ((v.services.map Service.hours).sum) ++ "  \n") ++
        b := by
  refine ⟨md_of v, create_markdown_invoice_toRaw v, md_before_totals v, md_after_totals v, ?_⟩
  rfl

/-- C3: the rendered output contains the recipient section verbatim, and
that section omits the email line entirely when the optional `to_email` is
absent or blank (empty or whitespace-only), while a present non-blank value
is included verbatim. -/
theorem c3_recipient_email (v : Invoice) :
    (∃ a b, create_markdown_invoice v.toRaw =
        Except.ok (a ++ ("## To\n" ++ to_section_of v.to_name v.to_email ++ "  \n") ++ b)) ∧
    (v.to_email = none → to_section_of v.to_name v.to_email = v.to_name) ∧
    (∀ e, v.to_email = some e → pyStrip e = "" →
      to_section_of v.to_name v.to_email = v.to_name) ∧
    (∀ e, v.to_email = some e → pyStrip e ≠ "" →
      to_section_of v.to_name v.to_email = v.to_name ++ "  \nEmail: `" ++ e ++ "`") := by
  refine ⟨?_, ?_, ?_, ?_⟩
  · refine ⟨md_to_pre v,
      md_table_head ++ md_rows v ++ "\n" ++
        ("**Total Hours:** " ++ fmtFixed 1 ((v.services.map Service.hours).sum) ++ "  \n") ++
        md_after_totals v, ?_⟩
    rw [create_markdown_invoice_toRaw v]
    simp [md_of, md_before_totals, md_to_sect, String.append_assoc]
  · intro h; simp [to_section_of, h]
  · intro e he hstrip
    have h0 : ¬ (e ≠ "" ∧ pyStrip e ≠ "") := by
      rintro ⟨_, h2⟩; exact h2 hstrip
    simp [to_section_of, he, h0]
  · intro e he hstrip
    have h1 : e ≠ "" := by
      intro h0; rw [h0] at hstrip; exact hstrip rfl
    simp [to_section_of, he, h1, hstrip]

/-- Witness for C3 at concrete inputs: a non-blank email is rendered
verbatim and a whitespace-only email is dropped. -/
theorem c3_recipient_email_witness :
    to_section_of "Bob" (some "b@y.io") = "Bob" ++ "  \nEmail: `" ++ "b@y.io" ++ "`" ∧
    to_section_of "Carol" (some "   ") = "Carol" :=
  ⟨(c3_recipient_email invA).2.2.2 "b@y.io" rfl (by decide),
   (c3_recipient_email invB).2.2.1 "   " rfl (by decide)⟩

/-- Counterexample to C5 as stated: a permission error on the stylesheet
path is not absence, yet the loader raises — the uncaught exception
propagates instead of falling back to the default style, so absence is not
the only failure mode. -/
theorem c5_counterexample :
    CssFile.ioError
        "PermissionError: [Errno 13] Permission denied: 'includes/style.css'" ≠
      CssFile.absent ∧
    load_css (CssFile.ioError
        "PermissionError: [Errno 13] Permission denied: 'includes/style.css'") =
      Except.error
        "PermissionError: [Errno 13] Permission denied: 'includes/style.css'" := by
  exact ⟨by simp, rfl⟩

/-- C5 (amended): if the stylesheet file is absent the loader returns the
built-in minimal default style block with a non-fatal warning, and a
present readable file is returned wrapped with no warning; but absence is
not the only failure mode — only `FileNotFoundError` is caught, so any
other error on opening or reading the path (permission denied, path is a
directory, decode error) propagates to the caller. -/
theorem c5_load_css (o : CssFile) :
    (o = CssFile.absent → load_css o = Except.ok (minimal_style, [css_warning])) ∧
    (∀ c, o = CssFile.content c →
      load_css o = Except.ok ("<style>\n" ++ c ++ "\n</style>", [])) ∧
    (∀ m, o = CssFile.ioError m → load_css o = Except.error m) := by
  refine ⟨?_, ?_, ?_⟩
  · rintro rfl; rfl
  · rintro c rfl; rfl
  · rintro m rfl; rfl

/-- Witness for C5 (amended) at concrete inputs: the absent case, a
readable case, and an uncaught permission error. -/
theorem c5_load_css_witness :
    load_css CssFile.absent = Except.ok (minimal_style, [css_warning]) ∧
    load_css (CssFile.content "p \x7b color: red; \x7d") =
      Except.ok ("<style>\n" ++ "p \x7b color: red; \x7d" ++ "\n</style>", []) ∧
    load_css (CssFile.ioError "PermissionError: [Errno 13] Permission denied") =
      Except.error "PermissionError: [Errno 13] Permission denied" :=
  ⟨(c5_load_css CssFile.absent).1 rfl,
   (c5_load_css (CssFile.content "p \x7b color: red; \x7d")).2.1
     "p \x7b color: red; \x7d" rfl,
   (c5_load_css (CssFile.ioError "PermissionError: [Errno 13] Permission denied")).2.2
     "PermissionError: [Errno 13] Permission denied" rfl⟩

/-- C7: a file whose base name starts with an underscore is never selected
by the discovery step, whatever else is in the directory listing. -/
theorem c7_template_excluded (paths : List String) (p : String)
    (h : strStartsWith (basename p) "_" = true) :
    p ∉ get_invoice_files paths := by
  intro hmem
  simp only [get_invoice_files, List.mem_filter] at hmem
  rw [h] at hmem
  exact absurd hmem.2 (by simp)

/-- Witness for C7 at a concrete input: the template file is excluded even
when present in the listing. -/
theorem c7_template_excluded_witness :
    "invoices/_template.yaml" ∉
      get_invoice_files ["invoices/_template.yaml", "invoices/a.yaml"] :=
  c7_template_excluded _ _ (by decide)

/-- C8: the template renderer is a deterministic pure function of the
invoice record; equal records produce identical markdown, with no dependence
on any ambient state (the embedding takes no filesystem or clock input). -/
theorem c8_renderer_deterministic (d1 d2 : RawInvoice) (h : d1 = d2) :
    create_markdown_invoice d1 = create_markdown_invoice d2 := by
  rw [h]

/-- Witness for C8 at a concrete record. -/
theorem c8_renderer_deterministic_witness :
    create_markdown_invoice invA.toRaw = create_markdown_invoice invA.toRaw :=
  c8_renderer_deterministic invA.toRaw invA.toRaw rfl

/-- C9: the existence check matches by filename prefix pattern, not exact
identity.  With the distinct invoice numbers 10 and 10_2, where the second
extends the first, a filesystem holding only the artifact named for 10_2
makes the check for 10 report an existing PDF, so a record numbered 10 is
skipped and nothing is written. -/
theorem c9_pattern_overmatch :
    ("10" : String) ≠ "10_2" ∧
    check_existing_pdf "10"
      [("output/invoice_" ++ "10_2" ++ "_" ++ "20250101" ++ ".pdf", "pdfbytes")]
      "output" false = true ∧
    (stepResult ⟨false, false⟩ CssFile.absent "20261012"
        [("output/invoice_" ++ "10_2" ++ "_" ++ "20250101" ++ ".pdf", "pdfbytes")]
        ("invoices/10.yaml", Except.ok invTen.toRaw)).2.1 = Outcome.skipped ∧
    (stepResult ⟨false, false⟩ CssFile.absent "20261012"
        [("output/invoice_" ++ "10_2" ++ "_" ++ "20250101" ++ ".pdf", "pdfbytes")]
        ("invoices/10.yaml", Except.ok invTen.toRaw)).1 =
      [("output/invoice_" ++ "10_2" ++ "_" ++ "20250101" ++ ".pdf", "pdfbytes")] := by
  decide

/-- Counterexample to C1 as stated: the only existing artifact for invoice
1001 carries the date suffix 20250101, today is 20261012, the force flag is
off, yet the run generates nothing — the record is skipped and no file named
with today's date appears. -/
theorem c1_counterexample :
    check_existing_pdf "1001" fs0 "output" false = true ∧
    (runBatch ⟨false, false⟩ CssFile.absent "20261012" [entryA] ⟨fs0, 0, 0, []⟩).processed_count = 0 ∧
    (runBatch ⟨false, false⟩ CssFile.absent "20261012" [entryA] ⟨fs0, 0, 0, []⟩).skipped_count = 1 ∧
    (runBatch ⟨false, false⟩ CssFile.absent "20261012" [entryA] ⟨fs0, 0, 0, []⟩).fs = fs0 ∧
    fsRead (runBatch ⟨false, false⟩ CssFile.absent "20261012" [entryA] ⟨fs0, 0, 0, []⟩).fs
      ("output/invoice_" ++ "1001" ++ "_" ++ "20261012" ++ ".pdf") = none := by
  decide

/-- C1 (amended): without the force flag a record is skipped, with no new
artifact, precisely when any existing artifact matches the filename pattern
for its invoice number — whatever date suffix that artifact carries; only
when no artifact matches is a new artifact written, named with today's
date. -/
theorem c1_dedup_any_date (c : CssFile) (t : String) (fs : FS) (entry : Entry)
    (d : RawInvoice) (n : String) (dbg : Bool)
    (h1 : entry.2 = Except.ok d) (h2 : d.invoice_number = some n) :
    (check_existing_pdf n fs "output" false = true →
      stepResult ⟨false, dbg⟩ c t fs entry =
        (fs, Outcome.skipped, ["Skipping invoice " ++ n ++ " - PDF already exists"])) ∧
    (∀ md cw, check_existing_pdf n fs "output" false = false →
      create_markdown_invoice d = Except.ok md →
      load_css c = Except.ok cw →
      (stepResult ⟨false, dbg⟩ c t fs entry).2.1 = Outcome.generated (full_html_of cw.1 md) ∧
      fsRead (stepResult ⟨false, dbg⟩ c t fs entry).1
          ("output/invoice_" ++ n ++ "_" ++ t ++ ".pdf") =
        some (weasyprint_render (full_html_of cw.1 md))) := by
  constructor
  · intro hc
    exact stepResult_of_ok (process_one_skip h1 h2 hc)
  · intro md cw hc hmd hcw
    rw [stepResult_of_ok (process_one_generate h1 h2 hc hmd hcw)]
    exact ⟨rfl, fsRead_fsWrite_self _ _ _⟩

/-- Witness for C1 (amended) at concrete inputs: with a different-date
artifact present the record is skipped, and with no artifact present a file
named with today's date is produced. -/
theorem c1_dedup_any_date_witness :
    stepResult ⟨false, false⟩ CssFile.absent "20261012" fs0 entryA =
      (fs0, Outcome.skipped, ["Skipping invoice " ++ "1001" ++ " - PDF already exists"]) ∧
    fsRead (stepResult ⟨false, false⟩ CssFile.absent "20261012" [] entryA).1
        ("output/invoice_" ++ "1001" ++ "_" ++ "20261012" ++ ".pdf") =
      some (weasyprint_render (full_html_of minimal_style (md_of invA))) :=
  ⟨(c1_dedup_any_date CssFile.absent "20261012" fs0 entryA invA.toRaw "1001" false rfl rfl).1
      (by decide),
   ((c1_dedup_any_date CssFile.absent "20261012" [] entryA invA.toRaw "1001" false rfl rfl).2
      (md_of invA) (minimal_style, [css_warning]) (by decide)
      (create_markdown_invoice_toRaw invA) rfl).2⟩

/-- C6: with the force flag set the existence check reports no existing PDF
for every invoice number and filesystem state, no record is ever skipped,
and every loadable valid record is generated — its artifact written
(overwriting any same-day file at that path) and reported as generated. -/
theorem c6_force_regenerate (n : String) (dir : String) (c : CssFile)
    (t : String) (fs : FS) (entry : Entry) (dbg : Bool) :
    check_existing_pdf n fs dir true = false ∧
    (stepResult ⟨true, dbg⟩ c t fs entry).2.1 ≠ Outcome.skipped ∧
    (∀ d md cw, entry.2 = Except.ok d → d.invoice_number = some n →
      create_markdown_invoice d = Except.ok md →
      load_css c = Except.ok cw →
      (stepResult ⟨true, dbg⟩ c t fs entry).2.1 = Outcome.generated (full_html_of cw.1 md) ∧
      fsRead (stepResult ⟨true, dbg⟩ c t fs entry).1
          ("output/invoice_" ++ n ++ "_" ++ t ++ ".pdf") =
        some (weasyprint_render (full_html_of cw.1 md))) := by
  refine ⟨rfl, stepResult_force_not_skipped _ _ _ _ _ rfl, ?_⟩
  intro d md cw h1 h2 hmd hcw
  have hc : check_existing_pdf n fs "output" (true : Bool) = false := rfl
  rw [stepResult_of_ok (process_one_generate h1 h2 hc hmd hcw)]
  exact ⟨rfl, fsRead_fsWrite_self _ _ _⟩

/-- Witness for C6 at concrete inputs: with a same-day artifact already on
disk and the force flag set, the record is generated and the artifact now
holds the newly rendered document. -/
theorem c6_force_regenerate_witness :
    (stepResult ⟨true, false⟩ CssFile.absent "20261012"
        [("output/invoice_" ++ "1001" ++ "_" ++ "20261012" ++ ".pdf", "old")] entryA).2.1 =
      Outcome.generated (full_html_of minimal_style (md_of invA)) ∧
    fsRead (stepResult ⟨true, false⟩ CssFile.absent "20261012"
        [("output/invoice_" ++ "1001" ++ "_" ++ "20261012" ++ ".pdf", "old")] entryA).1
        ("output/invoice_" ++ "1001" ++ "_" ++ "20261012" ++ ".pdf") =
      some (weasyprint_render (full_html_of minimal_style (md_of invA))) :=
  (c6_force_regenerate "1001" "output" CssFile.absent "20261012"
      [("output/invoice_" ++ "1001" ++ "_" ++ "20261012" ++ ".pdf", "old")]
      entryA false).2.2 invA.toRaw (md_of invA) (minimal_style, [css_warning]) rfl rfl
    (create_markdown_invoice_toRaw invA) rfl

/-- C4: an exception while processing one record is caught, logged with the
file name and message, and the loop proceeds: the batch with the failing
record equals the batch without it except for the appended error line, so
the filesystem and both counters are exactly those of the run on the
sibling records alone. -/
theorem c4_error_isolation (a : Args) (c : CssFile) (t : String)
    (xs ys : List Entry) (bad : Entry) (m : String) (s : BatchState)
    (h : process_one a c t (runBatch a c t xs s).fs bad = Except.error m) :
    runBatch a c t (xs ++ bad :: ys) s =
      runBatch a c t ys
        { runBatch a c t xs s with
            log := (runBatch a c t xs s).log ++
              ["Error processing " ++ bad.1 ++ ": " ++ m] } ∧
    (runBatch a c t (xs ++ bad :: ys) s).fs = (runBatch a c t (xs ++ ys) s).fs ∧
    (runBatch a c t (xs ++ bad :: ys) s).processed_count =
      (runBatch a c t (xs ++ ys) s).processed_count ∧
    (runBatch a c t (xs ++ bad :: ys) s).skipped_count =
      (runBatch a c t (xs ++ ys) s).skipped_count := by
  rcases hmid : runBatch a c t xs s with ⟨mfs, mp, mks, ml⟩
  rw [hmid] at h
  have hstep : stepResult a c t mfs bad =
      (mfs, Outcome.failed m, ["Error processing " ++ bad.1 ++ ": " ++ m]) :=
    stepResult_of_error h
  have hmain : runBatch a c t (xs ++ bad :: ys) s =
      runBatch a c t ys ⟨mfs, mp, mks, ml ++ ["Error processing " ++ bad.1 ++ ": " ++ m]⟩ := by
    rw [runBatch_append, hmid, runBatch_cons, step_def]
    simp only [hstep, genInc, skipInc, Nat.add_zero]
  have hright : runBatch a c t (xs ++ ys) s = runBatch a c t ys ⟨mfs, mp, mks, ml⟩ := by
    rw [runBatch_append, hmid]
  refine ⟨?_, ?_, ?_, ?_⟩
  · rw [hmain]
  · rw [hmain, hright, runBatch_eq, runBatch_eq]
  · rw [hmain, hright, runBatch_eq, runBatch_eq]
  · rw [hmain, hright, runBatch_eq, runBatch_eq]

/-- Witness for C4 at concrete inputs: a batch of a valid record, a record
whose load raises, and another valid record; the failing middle record only
adds an error line, and both siblings are still processed. -/
theorem c4_error_isolation_witness :
    runBatch ⟨false, false⟩ CssFile.absent "20261012" ([entryA] ++ entryBad :: [entryB]) ⟨[], 0, 0, []⟩ =
      runBatch ⟨false, false⟩ CssFile.absent "20261012" [entryB]
        { runBatch ⟨false, false⟩ CssFile.absent "20261012" [entryA] ⟨[], 0, 0, []⟩ with
            log := (runBatch ⟨false, false⟩ CssFile.absent "20261012" [entryA] ⟨[], 0, 0, []⟩).log ++
              ["Error processing " ++ entryBad.1 ++ ": " ++ "yaml.YAMLError"] } ∧
    (runBatch ⟨false, false⟩ CssFile.absent "20261012" ([entryA] ++ entryBad :: [entryB])
        ⟨[], 0, 0, []⟩).processed_count = 2 :=
  ⟨(c4_error_isolation ⟨false, false⟩ CssFile.absent "20261012" [entryA] [entryB] entryBad
      "yaml.YAMLError" ⟨[], 0, 0, []⟩ rfl).1,
   by decide⟩

/-- C10: in debug mode the intermediate HTML goes to the same fixed path for
every generated record, so after any batch the debug artifact holds exactly
the last generated record's document (earlier intermediates are silently
overwritten), and a batch that generates nothing leaves it untouched. -/
theorem c10_debug_overwrite (regen : Bool) (c : CssFile) (t : String) :
    ∀ (files : List Entry) (s : BatchState),
      (∀ H, (debugTrace ⟨regen, true⟩ c t files s.fs).getLast? = some H →
        fsRead (runBatch ⟨regen, true⟩ c t files s).fs "debug.html" = some H) ∧
      (debugTrace ⟨regen, true⟩ c t files s.fs = [] →
        fsRead (runBatch ⟨regen, true⟩ c t files s).fs "debug.html" =
          fsRead s.fs "debug.html") := by
  intro files
  induction files with
  | nil =>
    intro s
    constructor
    · intro H hH; simp [debugTrace] at hH
    · intro _; rfl
  | cons e files ih =>
    intro s
    rcases hsr : stepResult ⟨regen, true⟩ c t s.fs e with ⟨fs', oc, lg⟩
    have hstepfs : (step ⟨regen, true⟩ c t s e).fs = fs' := by
      rw [step_def, hsr]
    cases oc with
    | generated H0 =>
      have hread : fsRead fs' "debug.html" = some H0 :=
        debug_html_after_generated rfl hsr
      have htr : debugTrace ⟨regen, true⟩ c t (e :: files) s.fs =
          H0 :: debugTrace ⟨regen, true⟩ c t files fs' := by
        simp [debugTrace, hsr]
      constructor
      · intro H hH
        rw [htr] at hH
        rw [runBatch_cons]
        rcases htr2 : debugTrace ⟨regen, true⟩ c t files fs' with _ | ⟨h1, l1⟩
        · rw [htr2] at hH
          simp only [List.getLast?_singleton, Option.some.injEq] at hH
          have h2 := (ih (step ⟨regen, true⟩ c t s e)).2
          rw [hstepfs] at h2
          rw [h2 htr2, hread, hH]
        · rw [htr2, List.getLast?_cons_cons] at hH
          have h1' := (ih (step ⟨regen, true⟩ c t s e)).1 H
          rw [hstepfs] at h1'
          exact h1' (by rw [htr2]; exact hH)
      · intro h0
        rw [htr] at h0
        exact absurd h0 (by simp)
    | skipped =>
      have hfs : fs' = s.fs :=
        fs_unchanged_of_not_generated hsr (fun H h => Outcome.noConfusion h)
      have htr : debugTrace ⟨regen, true⟩ c t (e :: files) s.fs =
          debugTrace ⟨regen, true⟩ c t files fs' := by
        simp [debugTrace, hsr]
      constructor
      · intro H hH
        rw [htr, hfs] at hH
        rw [runBatch_cons]
        have h1 := (ih (step ⟨regen, true⟩ c t s e)).1 H
        rw [hstepfs, hfs] at h1
        exact h1 hH
      · intro h0
        rw [htr, hfs] at h0
        rw [runBatch_cons]
        have h2 := (ih (step ⟨regen, true⟩ c t s e)).2
        rw [hstepfs, hfs] at h2
        exact h2 h0
    | failed m =>
      have hfs : fs' = s.fs :=
        fs_unchanged_of_not_generated hsr (fun H h => Outcome.noConfusion h)
      have htr : debugTrace ⟨regen, true⟩ c t (e :: files) s.fs =
          debugTrace ⟨regen, true⟩ c t files fs' := by
        simp [debugTrace, hsr]
      constructor
      · intro H hH
        rw [htr, hfs] at hH
        rw [runBatch_cons]
        have h1 := (ih (step ⟨regen, true⟩ c t s e)).1 H
        rw [hstepfs, hfs] at h1
        exact h1 hH
      · intro h0
        rw [htr, hfs] at h0
        rw [runBatch_cons]
        have h2 := (ih (step ⟨regen, true⟩ c t s e)).2
        rw [hstepfs, hfs] at h2
        exact h2 h0

/-- Witness for C10 at concrete inputs: a debug-mode batch generating two
records leaves `debug.html` holding the second record's document, which
differs from the first record's document. -/
theorem c10_debug_overwrite_witness :
    fsRead (runBatch ⟨false, true⟩ CssFile.absent "20261012" [entryA, entryB]
        ⟨[], 0, 0, []⟩).fs "debug.html" =
      some (full_html_of minimal_style (md_of invB)) ∧
    (runBatch ⟨false, true⟩ CssFile.absent "20261012" [entryA, entryB]
        ⟨[], 0, 0, []⟩).processed_count = 2 ∧
    full_html_of minimal_style (md_of invA) ≠ full_html_of minimal_style (md_of invB) := by
  have hw : load_css CssFile.absent =
      Except.ok ((minimal_style, [css_warning]) : String × List String) := rfl
  have hc1 : check_existing_pdf "1001" ([] : FS) "output" false = false := by decide
  have hd1 : entryA.2 = Except.ok invA.toRaw := rfl
  have hn1 : invA.toRaw.invoice_number = some "1001" := rfl
  have e1 : stepResult ⟨false, true⟩ CssFile.absent "20261012" [] entryA = _ :=
    stepResult_of_ok (process_one_generate hd1 hn1 hc1
      (create_markdown_invoice_toRaw invA) hw)
  have hd2 : entryB.2 = Except.ok invB.toRaw := rfl
  have hn2 : invB.toRaw.invoice_number = some "1002" := rfl
  have hc2 : check_existing_pdf "1002"
      (fsWrite
        (if (Args.mk false true).debug = true then
          fsWrite [] "debug.html"
            (full_html_of ((minimal_style, [css_warning]) : String × List String).1 (md_of invA))
        else [])
        ("output/invoice_" ++ "1001" ++ "_" ++ "20261012" ++ ".pdf")
        (weasyprint_render
          (full_html_of ((minimal_style, [css_warning]) : String × List String).1 (md_of invA))))
      "output" false = false := by decide
  have e2 : stepResult ⟨false, true⟩ CssFile.absent "20261012"
      (fsWrite
        (if (Args.mk false true).debug = true then
          fsWrite [] "debug.html"
            (full_html_of ((minimal_style, [css_warning]) : String × List String).1 (md_of invA))
        else [])
        ("output/invoice_" ++ "1001" ++ "_" ++ "20261012" ++ ".pdf")
        (weasyprint_render
          (full_html_of ((minimal_style, [css_warning]) : String × List String).1 (md_of invA))))
      entryB = _ :=
    stepResult_of_ok (process_one_generate hd2 hn2 hc2
      (create_markdown_invoice_toRaw invB) hw)
  have htr : debugTrace ⟨false, true⟩ CssFile.absent "20261012" [entryA, entryB] [] =
      [full_html_of ((minimal_style, [css_warning]) : String × List String).1 (md_of invA),
       full_html_of ((minimal_style, [css_warning]) : String × List String).1 (md_of invB)] := by
    rw [debugTrace_cons_generated [entryB] e1, debugTrace_cons_generated [] e2,
      debugTrace_nil]
  refine ⟨?_, by decide, by decide⟩
  exact (c10_debug_overwrite false CssFile.absent "20261012" [entryA, entryB]
      ⟨[], 0, 0, []⟩).1 (full_html_of minimal_style (md_of invB))
    (by rw [show (⟨[], 0, 0, []⟩ : BatchState).fs = [] from rfl, htr]; rfl)

end Invoices
